import Mathlib

/-!
Verification of the reconciliation state machine in `main.go`.

The repository contains two near-duplicate Pod reconcilers:
* variant A (the 120-count, throttled reconciler): annotation keys
  checktimestart / checktimeend / checktimeupdate / checknum;
* variant B (the 100-count reconciler without a time throttle): keys
  startchecktime / endchecktime / checknum.

Both are embedded below.  Time is modelled at second granularity (the
resolution of the RFC3339 wire format used by the code); a duration of one
second is the integer 1.  The external collaborators (object store,
watch/queue, the time and formatting libraries) are modelled by explicit
parameters and small executable codecs.
-/

/-- Modelled from the spec: the RFC3339 timestamp codec provided by the
external time library (spec section 6; the library itself is out of scope
per section 1).  The reconciler depends only on the codec being an injective
textual encoding of instants with explicit failure on malformed values, so
it is modelled as such: a sign character followed by a unary run of marks.
Encoding of the instant t (an integer number of seconds). -/
def timeFormat : Int → String
  | Int.ofNat n => String.mk (List.replicate (n + 1) '#')
  | Int.negSucc n => String.mk ('-' :: List.replicate (n + 1) '#')

/-- Modelled from the spec: the inverse direction of the external RFC3339
codec (go's time.Parse with the RFC3339 layout); returns none on any string
not produced by timeFormat, matching parse failure on a malformed value. -/
def timeParse (s : String) : Option Int :=
  match s.data with
  | [] => none
  | c :: cs =>
    if c == '-' then
      if !cs.isEmpty && cs.all (fun d => d == '#') then
        some (Int.negSucc (cs.length - 1))
      else none
    else if c == '#' && cs.all (fun d => d == '#') then
      some (Int.ofNat cs.length)
    else none

/-- Decimal digit test, as in go's strconv: a character between '0' and '9'. -/
def isDecDigit (c : Char) : Bool :=
  '0' ≤ c && c ≤ '9'

/-- Accumulator loop of the decimal parser: consumes decimal digits,
failing on the first non-digit character. -/
def parseDecAux : List Char → Nat → Option Nat
  | [], acc => some acc
  | c :: cs, acc =>
    if isDecDigit c then parseDecAux cs (acc * 10 + (c.toNat - 48)) else none

/-- Unsigned decimal parser: at least one digit, all digits. -/
def parseDec : List Char → Option Nat
  | [] => none
  | cs => parseDecAux cs 0

/-- go's strconv.Atoi as used by both reconcilers: optional sign, then a
non-empty run of decimal digits; anything else is an error (modelled as
none).  Machine-integer range checks are irrelevant here (every counter the
code writes is at most 121) and are omitted. -/
def atoi (s : String) : Option Int :=
  match s.data with
  | [] => none
  | '+' :: cs => (parseDec cs).map Int.ofNat
  | '-' :: cs => (parseDec cs).map (fun n => -(n : Int))
  | cs => (parseDec cs).map Int.ofNat

/-- go's fmt.Sprintf with the %d verb, used to write the counter back. -/
def sprintfD (i : Int) : String := toString i

/-- The annotations of variant A's pod that the reconciler reads or writes:
mycontrollercheck/checktimestart, /checktimeend, /checktimeupdate,
/checknum.  A missing key is none. -/
structure AnnotationsA where
  checkTimeStart : Option String := none
  checkTimeEnd : Option String := none
  checkTimeUpdate : Option String := none
  checkNum : Option String := none
deriving DecidableEq

/-- Variant A's pod: the annotations map, which may be nil (none) on a pod
that has no annotations at all. -/
structure PodA where
  annotations : Option AnnotationsA
deriving DecidableEq

/-- The annotations of variant B's pod: mycontrollercheck/startchecktime,
/endchecktime, /checknum. -/
structure AnnotationsB where
  startCheckTime : Option String := none
  endCheckTime : Option String := none
  checkNum : Option String := none
deriving DecidableEq

/-- Variant B's pod. -/
structure PodB where
  annotations : Option AnnotationsB
deriving DecidableEq

/-- Outcome of the client's Get call, an input to one reconcile invocation:
the fetched object, a NotFound error, or any other store error. -/
inductive GetResult (P : Type) where
  | found (pod : P)
  | notFound
  | error
deriving DecidableEq

/-- The store's reply to the single Patch/Update a reconcile invocation may
issue: success, an optimistic-concurrency Conflict, NotFound, or any other
store error. -/
inductive WriteResult where
  | ok
  | conflict
  | notFound
  | error
deriving DecidableEq

/-- The error value a reconcile invocation returns to the caller (none is
go's nil error). -/
inductive ReconcileErr where
  | getError
  | parseTime (raw : String)
  | parseNum (raw : String)
  | write (w : WriteResult)
deriving DecidableEq

/-- Which branch of variant A's Reconcile ran (one tag per return site of
the go function). -/
inductive ActionA where
  | notFound
  | getError
  | noopCompleted
  | firstRun
  | malformedTime
  | throttle
  | malformedNum
  | increment
  | complete
  | inconsistent
deriving DecidableEq

/-- Result of one invocation of variant A's Reconcile: the pod submitted to
Patch (none when no write was attempted), the RequeueAfter duration of the
returned ctrl.Result (0 when the zero Result is returned), the returned
error, and the branch tag. -/
structure OutcomeA where
  write : Option PodA
  requeueAfter : Int
  err : Option ReconcileErr
  action : ActionA
deriving DecidableEq

/-- Which branch of variant B's Reconcile ran. -/
inductive ActionB where
  | notFound
  | getError
  | noopCompleted
  | malformedNum
  | completeWrite
  | requeueWrite
deriving DecidableEq

/-- Result of one invocation of variant B's Reconcile. -/
structure OutcomeB where
  write : Option PodB
  requeueAfter : Int
  err : Option ReconcileErr
  action : ActionB
deriving DecidableEq

/-- The reconcile interval: time.Second, i.e. one second. -/
def interval : Int := 1

/-- Variant A's completion target (the literal 120 in main.go). -/
def targetA : Int := 120

/-- Variant B's completion target (the literal 100 in main.go). -/
def targetB : Int := 100

/-- Variant A's Reconcile (main.go lines 30-132).  Inputs: the Get outcome,
the current time (time.Now at second granularity), and the store's reply to
the Patch this invocation would issue.  The error mapping mirrors the go
code exactly: every Patch error is returned verbatim (no special handling
of Conflict or NotFound on writes), a non-NotFound Get error is returned,
a NotFound Get is swallowed, and the inconsistent-state branch (lines
123-127) builds and logs an error but returns a nil error. -/
def reconcileA (g : GetResult PodA) (now : Int) (w : WriteResult) : OutcomeA :=
  match g with
  | .notFound =>
    { write := none, requeueAfter := 0, err := none, action := .notFound }
  | .error =>
    { write := none, requeueAfter := 0, err := some .getError, action := .getError }
  | .found pod =>
    let ann := pod.annotations.getD {}
    if ann.checkTimeEnd.isSome then
      { write := none, requeueAfter := 0, err := none, action := .noopCompleted }
    else
      match ann.checkTimeUpdate with
      | none =>
        let ann2 := { ann with
          checkTimeUpdate := some (timeFormat now),
          checkTimeStart := some (timeFormat now),
          checkNum := some "0" }
        { write := some ⟨some ann2⟩, requeueAfter := 0,
          err := if w = .ok then none else some (.write w), action := .firstRun }
      | some timeStr =>
        match timeParse timeStr with
        | none =>
          { write := none, requeueAfter := 0,
            err := some (.parseTime timeStr), action := .malformedTime }
        | some updateTime =>
          let delta := updateTime + interval - now
          if delta ≤ 0 then
            match ann.checkNum with
            | some numStr =>
              match atoi numStr with
              | none =>
                { write := none, requeueAfter := 0,
                  err := some (.parseNum numStr), action := .malformedNum }
              | some checknum =>
                if checknum ≥ targetA then
                  let ann2 := { ann with checkTimeEnd := some (timeFormat now) }
                  { write := some ⟨some ann2⟩, requeueAfter := 0,
                    err := if w = .ok then none else some (.write w), action := .complete }
                else
                  let ann2 := { ann with
                    checkNum := some (sprintfD (checknum + 1)),
                    checkTimeUpdate := some (timeFormat now) }
                  { write := some ⟨some ann2⟩, requeueAfter := 0,
                    err := if w = .ok then none else some (.write w), action := .increment }
            | none =>
              { write := none, requeueAfter := 0, err := none, action := .inconsistent }
          else
            { write := none, requeueAfter := delta, err := none, action := .throttle }

/-- Variant B's Reconcile (main.go lines 208-244).  Returns none when the
go code panics: variant B never initializes a nil annotations map, so on a
pod with a nil map the first-run branch's assignment to the map is a
run-time panic.  Both r.Update calls discard the store's reply (lines 237
and 241), so the outcome never carries a write error. -/
def reconcileB (g : GetResult PodB) (now : Int) (_w : WriteResult) : Option OutcomeB :=
  match g with
  | .notFound =>
    some { write := none, requeueAfter := 0, err := none, action := .notFound }
  | .error =>
    some { write := none, requeueAfter := 0, err := some .getError, action := .getError }
  | .found pod =>
    match pod.annotations with
    | none => none
    | some ann =>
      if ann.endCheckTime.isSome then
        some { write := none, requeueAfter := 0, err := none, action := .noopCompleted }
      else
        match ann.checkNum with
        | some strNum =>
          match atoi strNum with
          | none =>
            some { write := none, requeueAfter := 0,
                   err := some (.parseNum strNum), action := .malformedNum }
          | some num =>
            let checknum := num + 1
            let ann2 := { ann with checkNum := some (sprintfD checknum) }
            if checknum ≥ targetB then
              some { write := some ⟨some { ann2 with endCheckTime := some (timeFormat now) }⟩,
                     requeueAfter := 0, err := none, action := .completeWrite }
            else
              some { write := some ⟨some ann2⟩, requeueAfter := interval,
                     err := none, action := .requeueWrite }
        | none =>
          let ann2 := { ann with
            startCheckTime := some (timeFormat now),
            checkNum := some (sprintfD 1) }
          if (1 : Int) ≥ targetB then
            some { write := some ⟨some { ann2 with endCheckTime := some (timeFormat now) }⟩,
                   requeueAfter := 0, err := none, action := .completeWrite }
          else
            some { write := some ⟨some ann2⟩, requeueAfter := interval,
                   err := none, action := .requeueWrite }

/-- Terminal marker of a variant A pod (reading a nil map yields absent). -/
def endOfA (p : PodA) : Option String := (p.annotations.getD {}).checkTimeEnd

/-- Terminal marker of a variant B pod. -/
def endOfB (p : PodB) : Option String := (p.annotations.getD {}).endCheckTime

/-- Counter annotation of a variant B pod. -/
def numOfB (p : PodB) : Option String := (p.annotations.getD {}).checkNum

/-- Trajectory of variant A under repeated delivery: starting from an
uninitialized pod (empty annotations map), each invocation k runs at time
t k with a store that accepts the write; the store state after a successful
patch is the submitted pod, otherwise unchanged. -/
def runA (t : Nat → Int) : Nat → PodA
  | 0 => ⟨some {}⟩
  | k + 1 => ((reconcileA (.found (runA t k)) (t k) .ok).write).getD (runA t k)

/-- Outcome of invocation k along variant A's trajectory. -/
def stepA (t : Nat → Int) (k : Nat) : OutcomeA :=
  reconcileA (.found (runA t k)) (t k) .ok

/-- Trajectory of variant B under repeated delivery from an uninitialized
pod with an empty (non-nil) annotations map. -/
def runB (t : Nat → Int) : Nat → PodB
  | 0 => ⟨some {}⟩
  | k + 1 =>
    ((reconcileB (.found (runB t k)) (t k) .ok).bind OutcomeB.write).getD (runB t k)

/-- Outcome of invocation k along variant B's trajectory. -/
def stepB (t : Nat → Int) (k : Nat) : Option OutcomeB :=
  reconcileB (.found (runB t k)) (t k) .ok

/-- Convergence specification for variant A's trajectory: invocation 0
initializes, invocations 1..120 are exactly the 120 counter increments,
invocation 121 writes the terminal marker, the pod is not Completed before
that write, and every invocation from 122 on is a pure no-op on a Completed
pod. -/
def convergesSpecA (t : Nat → Int) : Prop :=
  (stepA t 0).action = .firstRun
  ∧ (∀ k, 1 ≤ k → k ≤ 120 → (stepA t k).action = .increment)
  ∧ (stepA t 121).action = .complete
  ∧ (∀ k, k ≤ 121 → endOfA (runA t k) = none)
  ∧ (∀ k, 122 ≤ k → endOfA (runA t k) ≠ none ∧ stepA t k =
      { write := none, requeueAfter := 0, err := none, action := .noopCompleted })

/-- Convergence specification for variant B's trajectory: invocations 0..98
increment and requeue, invocation 99 performs the 100th increment and writes
the terminal marker in the same mutation, the counter after invocation k is
exactly k+1 for k ≤ 99, the pod is not Completed before invocation 99's
write, and every invocation from 100 on is a pure no-op. -/
def convergesSpecB (t : Nat → Int) : Prop :=
  (∀ k, k ≤ 98 → (stepB t k).map OutcomeB.action = some .requeueWrite)
  ∧ (stepB t 99).map OutcomeB.action = some .completeWrite
  ∧ (∀ k, k ≤ 99 → numOfB (runB t (k + 1)) = some (sprintfD ((k : Int) + 1)))
  ∧ (∀ k, k ≤ 99 → endOfB (runB t k) = none)
  ∧ (∀ k, 100 ≤ k → endOfB (runB t k) ≠ none ∧ stepB t k =
      some { write := none, requeueAfter := 0, err := none, action := .noopCompleted })

/-- Linear clock used to instantiate the convergence theorem: one second
per delivery. -/
def tLin : Nat → Int := fun i => (i : Int)

/-- Annotations of a variant A pod that is Active and not Completed: start
stamped at t0, last update stamped at tk, counter at c. -/
def annMidA (t0 tk c : Int) : AnnotationsA :=
  { checkTimeStart := some (timeFormat t0), checkTimeEnd := none,
    checkTimeUpdate := some (timeFormat tk), checkNum := some (sprintfD c) }

/-- Variant A pod in the Active state. -/
def podMidA (t0 tk c : Int) : PodA := ⟨some (annMidA t0 tk c)⟩

/-- Variant A pod in the Completed state (terminal marker stamped at tEnd). -/
def podDoneA (t0 tk tEnd c : Int) : PodA :=
  ⟨some { annMidA t0 tk c with checkTimeEnd := some (timeFormat tEnd) }⟩

/-- Annotations of a variant B pod that is Active and not Completed. -/
def annMidB (t0 c : Int) : AnnotationsB :=
  { startCheckTime := some (timeFormat t0), endCheckTime := none,
    checkNum := some (sprintfD c) }

/-- Variant B pod in the Active state. -/
def podMidB (t0 c : Int) : PodB := ⟨some (annMidB t0 c)⟩

/-- Variant B pod in the Completed state. -/
def podDoneB (t0 tEnd c : Int) : PodB :=
  ⟨some { annMidB t0 c with endCheckTime := some (timeFormat tEnd) }⟩

/-- Every mark list produced by the time codec satisfies the parser's scan. -/
theorem allReplicateHash (n : Nat) :
    (List.replicate n '#').all (fun d => d == '#') = true := by
  induction n with
  | zero => rfl
  | succ k ih => simp [List.replicate, ih]

/-- Round trip of the modelled time codec: parsing a formatted instant
yields that instant. -/
theorem timeParse_timeFormat (t : Int) : timeParse (timeFormat t) = some t := by
  cases t with
  | ofNat n => simp [timeFormat, timeParse, List.replicate, allReplicateHash]
  | negSucc n => simp [timeFormat, timeParse, List.replicate, allReplicateHash]

/-- Round trip of the counter codec on the values the reconcilers can ever
write (both targets are below 122): parsing a printed counter yields the
counter back. -/
theorem atoi_sprintfD_small :
    ∀ k : Nat, k < 122 → atoi (sprintfD (k : Int)) = some (k : Int) := by decide

/-- Variant A, lines 48-51: the terminal marker short-circuits the whole
body with the zero Result and a nil error, before any mutation. -/
theorem reconcileA_noop_lem (pod : PodA) (ann : AnnotationsA) (e : String)
    (now : Int) (w : WriteResult)
    (hPod : pod.annotations.getD {} = ann) (hEnd : ann.checkTimeEnd = some e) :
    reconcileA (.found pod) now w =
      { write := none, requeueAfter := 0, err := none, action := .noopCompleted } := by
  obtain ⟨annOpt⟩ := pod
  simp only at hPod
  simp only [reconcileA, hPod, hEnd, Option.isSome_some, if_true]

/-- Variant A, lines 55-70: with no last-update annotation, the invocation
initializes start, last-update and a zero counter in one patch and returns
the zero Result; a patch failure is returned verbatim. -/
theorem reconcileA_firstRun_lem (pod : PodA) (ann : AnnotationsA)
    (now : Int) (w : WriteResult)
    (hPod : pod.annotations.getD {} = ann) (hEnd : ann.checkTimeEnd = none)
    (hUpd : ann.checkTimeUpdate = none) :
    reconcileA (.found pod) now w =
      { write := some ⟨some { ann with
            checkTimeUpdate := some (timeFormat now),
            checkTimeStart := some (timeFormat now),
            checkNum := some "0" }⟩,
        requeueAfter := 0,
        err := if w = .ok then none else some (.write w),
        action := .firstRun } := by
  obtain ⟨annOpt⟩ := pod
  simp only at hPod
  obtain ⟨st, en, up, nm⟩ := ann
  simp only at hEnd hUpd
  subst hEnd hUpd
  simp only [reconcileA, hPod, Option.isSome_none, Bool.false_eq_true, if_false]

/-- Variant A, lines 78-131, early branch: before the next slot the
invocation mutates nothing and asks to be requeued after the remaining
delta. -/
theorem reconcileA_throttle_lem (pod : PodA) (ann : AnnotationsA) (s : String)
    (u now : Int) (w : WriteResult)
    (hPod : pod.annotations.getD {} = ann)
    (hEnd : ann.checkTimeEnd = none) (hUpd : ann.checkTimeUpdate = some s)
    (hParse : timeParse s = some u) (hEarly : now < u + interval) :
    reconcileA (.found pod) now w =
      { write := none, requeueAfter := u + interval - now, err := none,
        action := .throttle } := by
  obtain ⟨annOpt⟩ := pod
  simp only at hPod
  obtain ⟨st, en, up, nm⟩ := ann
  simp only at hEnd hUpd
  subst hEnd hUpd
  simp only [reconcileA, hPod, Option.isSome_none, Bool.false_eq_true, if_false, hParse]
  rw [if_neg (by omega)]

/-- Variant A, lines 92-96: a due invocation whose counter annotation does
not parse returns the parse error with no mutation. -/
theorem reconcileA_malformedNum_lem (pod : PodA) (ann : AnnotationsA)
    (s ns : String) (u now : Int) (w : WriteResult)
    (hPod : pod.annotations.getD {} = ann)
    (hEnd : ann.checkTimeEnd = none) (hUpd : ann.checkTimeUpdate = some s)
    (hParse : timeParse s = some u) (hDue : u + interval ≤ now)
    (hNum : ann.checkNum = some ns) (hBad : atoi ns = none) :
    reconcileA (.found pod) now w =
      { write := none, requeueAfter := 0, err := some (.parseNum ns),
        action := .malformedNum } := by
  obtain ⟨annOpt⟩ := pod
  simp only at hPod
  obtain ⟨st, en, up, nm⟩ := ann
  simp only at hEnd hUpd hNum
  subst hEnd hUpd hNum
  simp only [reconcileA, hPod, Option.isSome_none, Bool.false_eq_true, if_false,
    hParse, hBad]
  rw [if_pos (by omega)]

/-- Variant A, lines 123-127: a due invocation with a last-update annotation
but no counter annotation builds and logs an inconsistent-state error yet
returns the zero Result with a nil error and performs no mutation. -/
theorem reconcileA_inconsistent_lem (pod : PodA) (ann : AnnotationsA)
    (s : String) (u now : Int) (w : WriteResult)
    (hPod : pod.annotations.getD {} = ann)
    (hEnd : ann.checkTimeEnd = none) (hUpd : ann.checkTimeUpdate = some s)
    (hParse : timeParse s = some u) (hDue : u + interval ≤ now)
    (hNum : ann.checkNum = none) :
    reconcileA (.found pod) now w =
      { write := none, requeueAfter := 0, err := none, action := .inconsistent } := by
  obtain ⟨annOpt⟩ := pod
  simp only at hPod
  obtain ⟨st, en, up, nm⟩ := ann
  simp only at hEnd hUpd hNum
  subst hEnd hUpd hNum
  simp only [reconcileA, hPod, Option.isSome_none, Bool.false_eq_true, if_false, hParse]
  rw [if_pos (by omega)]

/-- Variant A, lines 109-121: a due invocation below the target increments
the counter and stamps the new update time in one patch; a patch failure is
returned verbatim. -/
theorem reconcileA_increment_lem (pod : PodA) (ann : AnnotationsA)
    (s ns : String) (u now c : Int) (w : WriteResult)
    (hPod : pod.annotations.getD {} = ann)
    (hEnd : ann.checkTimeEnd = none) (hUpd : ann.checkTimeUpdate = some s)
    (hParse : timeParse s = some u) (hDue : u + interval ≤ now)
    (hNum : ann.checkNum = some ns) (hC : atoi ns = some c) (hLt : c < targetA) :
    reconcileA (.found pod) now w =
      { write := some ⟨some { ann with
            checkNum := some (sprintfD (c + 1)),
            checkTimeUpdate := some (timeFormat now) }⟩,
        requeueAfter := 0,
        err := if w = .ok then none else some (.write w),
        action := .increment } := by
  obtain ⟨annOpt⟩ := pod
  simp only at hPod
  obtain ⟨st, en, up, nm⟩ := ann
  simp only at hEnd hUpd hNum
  subst hEnd hUpd hNum
  simp only [reconcileA, hPod, Option.isSome_none, Bool.false_eq_true, if_false,
    hParse, hC]
  rw [if_pos (by omega), if_neg (by omega)]

/-- Variant A, lines 98-107: a due invocation at or above the target writes
the terminal marker in one patch; a patch failure is returned verbatim. -/
theorem reconcileA_complete_lem (pod : PodA) (ann : AnnotationsA)
    (s ns : String) (u now c : Int) (w : WriteResult)
    (hPod : pod.annotations.getD {} = ann)
    (hEnd : ann.checkTimeEnd = none) (hUpd : ann.checkTimeUpdate = some s)
    (hParse : timeParse s = some u) (hDue : u + interval ≤ now)
    (hNum : ann.checkNum = some ns) (hC : atoi ns = some c) (hGe : targetA ≤ c) :
    reconcileA (.found pod) now w =
      { write := some ⟨some { ann with checkTimeEnd := some (timeFormat now) }⟩,
        requeueAfter := 0,
        err := if w = .ok then none else some (.write w),
        action := .complete } := by
  obtain ⟨annOpt⟩ := pod
  simp only at hPod
  obtain ⟨st, en, up, nm⟩ := ann
  simp only at hEnd hUpd hNum
  subst hEnd hUpd hNum
  simp only [reconcileA, hPod, Option.isSome_none, Bool.false_eq_true, if_false,
    hParse, hC]
  rw [if_pos (by omega), if_pos (by omega)]

/-- Variant B, lines 217-219: the terminal marker short-circuits with the
zero Result and a nil error, before any mutation. -/
theorem reconcileB_noop_lem (ann : AnnotationsB) (e : String)
    (now : Int) (w : WriteResult) (hEnd : ann.endCheckTime = some e) :
    reconcileB (.found ⟨some ann⟩) now w =
      some { write := none, requeueAfter := 0, err := none, action := .noopCompleted } := by
  simp only [reconcileB, hEnd, Option.isSome_some, if_true]

/-- Variant B, lines 222-225: an unparsable counter annotation returns the
parse error with no mutation. -/
theorem reconcileB_malformedNum_lem (ann : AnnotationsB) (ns : String)
    (now : Int) (w : WriteResult)
    (hEnd : ann.endCheckTime = none) (hNum : ann.checkNum = some ns)
    (hBad : atoi ns = none) :
    reconcileB (.found ⟨some ann⟩) now w =
      some { write := none, requeueAfter := 0, err := some (.parseNum ns),
             action := .malformedNum } := by
  obtain ⟨st, en, nm⟩ := ann
  simp only at hEnd hNum
  subst hEnd hNum
  simp only [reconcileB, Option.isSome_none, Bool.false_eq_true, if_false, hBad]

/-- Variant B, lines 221-228 and 239-243: a present, parsable counter below
target - 1 is incremented and the pod updated, with a one second requeue;
the store's reply to the update is discarded. -/
theorem reconcileB_increment_lem (ann : AnnotationsB) (ns : String)
    (now c : Int) (w : WriteResult)
    (hEnd : ann.endCheckTime = none) (hNum : ann.checkNum = some ns)
    (hC : atoi ns = some c) (hLt : c + 1 < targetB) :
    reconcileB (.found ⟨some ann⟩) now w =
      some { write := some ⟨some { ann with checkNum := some (sprintfD (c + 1)) }⟩,
             requeueAfter := interval, err := none, action := .requeueWrite } := by
  obtain ⟨st, en, nm⟩ := ann
  simp only at hEnd hNum
  subst hEnd hNum
  simp only [reconcileB, Option.isSome_none, Bool.false_eq_true, if_false, hC]
  rw [if_neg (by omega)]

/-- Variant B, lines 221-228 and 235-238: the increment that reaches the
target writes both the incremented counter and the terminal marker in the
same update and returns the zero Result; the store's reply is discarded. -/
theorem reconcileB_completes_lem (ann : AnnotationsB) (ns : String)
    (now c : Int) (w : WriteResult)
    (hEnd : ann.endCheckTime = none) (hNum : ann.checkNum = some ns)
    (hC : atoi ns = some c) (hGe : targetB ≤ c + 1) :
    reconcileB (.found ⟨some ann⟩) now w =
      some { write := some ⟨some { ann with
                 checkNum := some (sprintfD (c + 1)),
                 endCheckTime := some (timeFormat now) }⟩,
             requeueAfter := 0, err := none, action := .completeWrite } := by
  obtain ⟨st, en, nm⟩ := ann
  simp only at hEnd hNum
  subst hEnd hNum
  simp only [reconcileB, Option.isSome_none, Bool.false_eq_true, if_false, hC]
  rw [if_pos (by omega)]

/-- Variant B, lines 229-233 and 239-243: with no counter annotation the
invocation stamps the start time and a counter of one and requeues after
one second. -/
theorem reconcileB_firstRun_lem (ann : AnnotationsB) (now : Int) (w : WriteResult)
    (hEnd : ann.endCheckTime = none) (hNum : ann.checkNum = none) :
    reconcileB (.found ⟨some ann⟩) now w =
      some { write := some ⟨some { ann with
                 startCheckTime := some (timeFormat now),
                 checkNum := some (sprintfD 1) }⟩,
             requeueAfter := interval, err := none, action := .requeueWrite } := by
  obtain ⟨st, en, nm⟩ := ann
  simp only at hEnd hNum
  subst hEnd hNum
  simp only [reconcileB, Option.isSome_none, Bool.false_eq_true, if_false]
  rw [if_neg (by decide)]

/-- Variant A, lines 72-76: an unparsable last-update annotation returns
the parse error with no mutation. -/
theorem reconcileA_malformedTime_lem (pod : PodA) (ann : AnnotationsA)
    (s : String) (now : Int) (w : WriteResult)
    (hPod : pod.annotations.getD {} = ann)
    (hEnd : ann.checkTimeEnd = none) (hUpd : ann.checkTimeUpdate = some s)
    (hParse : timeParse s = none) :
    reconcileA (.found pod) now w =
      { write := none, requeueAfter := 0, err := some (.parseTime s),
        action := .malformedTime } := by
  obtain ⟨annOpt⟩ := pod
  simp only at hPod
  obtain ⟨st, en, up, nm⟩ := ann
  simp only at hEnd hUpd
  subst hEnd hUpd
  simp only [reconcileA, hPod, Option.isSome_none, Bool.false_eq_true, if_false, hParse]

/-- Inversion for variant A: whenever an invocation submits a write, the
returned error is exactly the store's reply to that write (nil on success),
the Result carries no requeue delay, and the submitted pod either bears the
terminal marker or has its last-update annotation stamped with the current
time. -/
theorem reconcileA_write_facts (pod : PodA) (now : Int) (w : WriteResult) (pod' : PodA)
    (h : (reconcileA (.found pod) now w).write = some pod') :
    (reconcileA (.found pod) now w).err = (if w = .ok then none else some (.write w))
    ∧ (reconcileA (.found pod) now w).requeueAfter = 0
    ∧ ∃ ann', pod'.annotations = some ann'
        ∧ (ann'.checkTimeEnd = none → ann'.checkTimeUpdate = some (timeFormat now)) := by
  rcases hEnd : (pod.annotations.getD {}).checkTimeEnd with _ | e
  · rcases hUpd : (pod.annotations.getD {}).checkTimeUpdate with _ | s
    · rw [reconcileA_firstRun_lem pod _ now w rfl hEnd hUpd] at h ⊢
      simp only [Option.some.injEq] at h
      subst h
      exact ⟨rfl, rfl, _, rfl, fun _ => rfl⟩
    · rcases hParse : timeParse s with _ | u
      · rw [reconcileA_malformedTime_lem pod _ s now w rfl hEnd hUpd hParse] at h
        simp at h
      · by_cases hDue : u + interval ≤ now
        · rcases hNum : (pod.annotations.getD {}).checkNum with _ | ns
          · rw [reconcileA_inconsistent_lem pod _ s u now w rfl hEnd hUpd hParse hDue hNum] at h
            simp at h
          · rcases hC : atoi ns with _ | c
            · rw [reconcileA_malformedNum_lem pod _ s ns u now w rfl hEnd hUpd hParse hDue hNum hC] at h
              simp at h
            · by_cases hT : targetA ≤ c
              · rw [reconcileA_complete_lem pod _ s ns u now c w rfl hEnd hUpd hParse hDue hNum hC hT] at h ⊢
                simp only [Option.some.injEq] at h
                subst h
                refine ⟨rfl, rfl, _, rfl, fun hc => ?_⟩
                simp at hc
              · rw [reconcileA_increment_lem pod _ s ns u now c w rfl hEnd hUpd hParse hDue hNum hC (by omega)] at h ⊢
                simp only [Option.some.injEq] at h
                subst h
                exact ⟨rfl, rfl, _, rfl, fun _ => rfl⟩
        · rw [reconcileA_throttle_lem pod _ s u now w rfl hEnd hUpd hParse (by omega)] at h
          simp at h
  · rw [reconcileA_noop_lem pod _ e now w rfl hEnd] at h
    simp at h

/-- Unfolding of one step of variant A's trajectory. -/
theorem runA_unfold (t : Nat → Int) (k : Nat) :
    runA t (k + 1) = ((reconcileA (.found (runA t k)) (t k) .ok).write).getD (runA t k) := rfl

/-- Unfolding of one step of variant B's trajectory. -/
theorem runB_unfold (t : Nat → Int) (k : Nat) :
    runB t (k + 1) =
      ((reconcileB (.found (runB t k)) (t k) .ok).bind OutcomeB.write).getD (runB t k) := rfl

/-- Invariant of variant A's trajectory through the counting phase: after
invocation k (k from 0 to 120) the pod is Active with start stamped at t 0,
last update stamped at t k, and counter k. -/
theorem runA_inv (t : Nat → Int) (hadv : ∀ i, t i + interval ≤ t (i + 1)) :
    ∀ k, k ≤ 120 → runA t (k + 1) = podMidA (t 0) (t k) (k : Int) := by
  intro k
  induction k with
  | zero =>
    intro _
    rw [runA_unfold]
    rw [reconcileA_firstRun_lem (runA t 0) {} (t 0) .ok rfl rfl rfl]
    rfl
  | succ k ih =>
    intro hk
    rw [runA_unfold, ih (by omega)]
    rw [reconcileA_increment_lem (podMidA (t 0) (t k) (k : Int)) (annMidA (t 0) (t k) (k : Int))
      (timeFormat (t k)) (sprintfD (k : Int)) (t k)
      (t (k + 1)) (k : Int) .ok rfl rfl rfl (timeParse_timeFormat _) (hadv k) rfl
      (atoi_sprintfD_small k (by omega)) (by simp only [targetA]; omega)]
    simp only [Option.getD_some, podMidA, annMidA]
    norm_cast

/-- After invocation 121 writes the terminal marker, variant A's trajectory
is frozen: every later state is the Completed pod. -/
theorem runA_done (t : Nat → Int) (hadv : ∀ i, t i + interval ≤ t (i + 1)) :
    ∀ j, runA t (122 + j) = podDoneA (t 0) (t 120) (t 121) 120 := by
  intro j
  induction j with
  | zero =>
    rw [show (122 : Nat) = 121 + 1 from rfl, runA_unfold, runA_inv t hadv 120 (by omega)]
    simp only [Nat.cast_ofNat]
    rw [reconcileA_complete_lem (podMidA (t 0) (t 120) 120) (annMidA (t 0) (t 120) 120)
      (timeFormat (t 120)) (sprintfD 120) (t 120) (t 121) 120 .ok rfl rfl rfl
      (timeParse_timeFormat _) (hadv 120) rfl
      (atoi_sprintfD_small 120 (by omega)) (by simp only [targetA]; omega)]
    rfl
  | succ j ih =>
    rw [show 122 + (j + 1) = (122 + j) + 1 from rfl, runA_unfold, ih]
    rw [reconcileA_noop_lem (podDoneA (t 0) (t 120) (t 121) 120)
      { annMidA (t 0) (t 120) 120 with checkTimeEnd := some (timeFormat (t 121)) }
      (timeFormat (t 121)) (t (122 + j)) .ok rfl rfl]
    exact ih ▸ rfl

/-- Invariant of variant B's trajectory through the counting phase: after
invocation k (k from 0 to 98) the pod is Active with start stamped at t 0
and counter k + 1. -/
theorem runB_inv (t : Nat → Int) :
    ∀ k, k ≤ 98 → runB t (k + 1) = podMidB (t 0) ((k : Int) + 1) := by
  intro k
  induction k with
  | zero =>
    intro _
    rw [runB_unfold, show runB t 0 = ⟨some {}⟩ from rfl]
    rw [reconcileB_firstRun_lem {} (t 0) .ok rfl rfl]
    rfl
  | succ k ih =>
    intro hk
    rw [runB_unfold, ih (by omega)]
    rw [show podMidB (t 0) ((k : Int) + 1) = ⟨some (annMidB (t 0) ((k : Int) + 1))⟩ from rfl]
    rw [reconcileB_increment_lem (annMidB (t 0) ((k : Int) + 1)) (sprintfD ((k : Int) + 1))
      (t (k + 1)) ((k : Int) + 1) .ok rfl rfl
      (by
        have h := atoi_sprintfD_small (k + 1) (by omega)
        push_cast at h
        exact h)
      (by simp only [targetB]; omega)]
    simp only [Option.some_bind, Option.getD_some, podMidB, annMidB]
    norm_cast

/-- After invocation 99 writes the hundredth counter value together with
the terminal marker, variant B's trajectory is frozen. -/
theorem runB_done (t : Nat → Int) :
    ∀ j, runB t (100 + j) = podDoneB (t 0) (t 99) 100 := by
  intro j
  induction j with
  | zero =>
    rw [show (100 : Nat) = 99 + 1 from rfl, runB_unfold, runB_inv t 98 (by omega)]
    rw [show podMidB (t 0) ((98 : Nat) + 1) = ⟨some (annMidB (t 0) 99)⟩ by norm_num [podMidB]]
    rw [reconcileB_completes_lem (annMidB (t 0) 99) (sprintfD 99) (t 99) 99 .ok rfl rfl
      (atoi_sprintfD_small 99 (by omega)) (by simp only [targetB]; omega)]
    rfl
  | succ j ih =>
    rw [show 100 + (j + 1) = (100 + j) + 1 from rfl, runB_unfold, ih]
    rw [show podDoneB (t 0) (t 99) 100 =
      (⟨some { annMidB (t 0) 100 with endCheckTime := some (timeFormat (t 99)) }⟩ : PodB) from rfl]
    rw [reconcileB_noop_lem { annMidB (t 0) 100 with endCheckTime := some (timeFormat (t 99)) }
      (timeFormat (t 99)) (t (100 + j)) .ok rfl]
    rfl

/-- C2: for the bounded-count policy, starting from an Uninitialized pod
and with time advancing by at least one interval between invocations, the
trajectory reaches the Completed state after exactly target increments
(120 for variant A, 100 for variant B), never more and never fewer:
variant A initializes on invocation 0, increments exactly on invocations
1..120, writes the terminal marker on invocation 121, and is a pure no-op
from invocation 122 on; variant B increments on every invocation 0..99,
writing the terminal marker together with the hundredth increment, and is
a pure no-op from invocation 100 on. -/
theorem claim2_bounded_convergence (t : Nat → Int)
    (hadv : ∀ i, t i + interval ≤ t (i + 1)) :
    convergesSpecA t ∧ convergesSpecB t := by
  constructor
  · refine ⟨?_, ?_, ?_, ?_, ?_⟩
    · show (reconcileA (.found (runA t 0)) (t 0) .ok).action = _
      rw [show runA t 0 = ⟨some {}⟩ from rfl,
        reconcileA_firstRun_lem ⟨some {}⟩ {} (t 0) .ok rfl rfl rfl]
    · intro k hk1 hk2
      obtain ⟨j, rfl⟩ : ∃ j, k = j + 1 := ⟨k - 1, by omega⟩
      show (reconcileA (.found (runA t (j + 1))) (t (j + 1)) .ok).action = _
      rw [runA_inv t hadv j (by omega)]
      rw [reconcileA_increment_lem (podMidA (t 0) (t j) (j : Int)) (annMidA (t 0) (t j) (j : Int))
        (timeFormat (t j)) (sprintfD (j : Int)) (t j) (t (j + 1)) (j : Int) .ok
        rfl rfl rfl (timeParse_timeFormat _) (hadv j) rfl
        (atoi_sprintfD_small j (by omega)) (by simp only [targetA]; omega)]
    · show (reconcileA (.found (runA t 121)) (t 121) .ok).action = _
      rw [show (121 : Nat) = 120 + 1 from rfl, runA_inv t hadv 120 (by omega)]
      simp only [Nat.cast_ofNat]
      rw [reconcileA_complete_lem (podMidA (t 0) (t 120) 120) (annMidA (t 0) (t 120) 120)
        (timeFormat (t 120)) (sprintfD 120) (t 120) (t 121) 120 .ok rfl rfl rfl
        (timeParse_timeFormat _) (hadv 120) rfl
        (atoi_sprintfD_small 120 (by omega)) (by simp only [targetA]; omega)]
    · intro k hk
      match k, hk with
      | 0, _ => rfl
      | j + 1, hk =>
        rw [runA_inv t hadv j (by omega)]
        rfl
    · intro k hk
      obtain ⟨j, rfl⟩ : ∃ j, k = 122 + j := ⟨k - 122, by omega⟩
      rw [show stepA t (122 + j) =
        reconcileA (.found (runA t (122 + j))) (t (122 + j)) .ok from rfl]
      rw [runA_done t hadv j]
      refine ⟨by simp [endOfA, podDoneA, annMidA], ?_⟩
      rw [reconcileA_noop_lem (podDoneA (t 0) (t 120) (t 121) 120)
        { annMidA (t 0) (t 120) 120 with checkTimeEnd := some (timeFormat (t 121)) }
        (timeFormat (t 121)) (t (122 + j)) .ok rfl rfl]
  · refine ⟨?_, ?_, ?_, ?_, ?_⟩
    · intro k hk
      match k, hk with
      | 0, _ =>
        show ((reconcileB (.found (runB t 0)) (t 0) .ok).map OutcomeB.action) = _
        rw [show runB t 0 = ⟨some {}⟩ from rfl,
          reconcileB_firstRun_lem {} (t 0) .ok rfl rfl]
        rfl
      | j + 1, hk =>
        show ((reconcileB (.found (runB t (j + 1))) (t (j + 1)) .ok).map OutcomeB.action) = _
        rw [runB_inv t j (by omega)]
        rw [show podMidB (t 0) ((j : Int) + 1) = ⟨some (annMidB (t 0) ((j : Int) + 1))⟩ from rfl]
        rw [reconcileB_increment_lem (annMidB (t 0) ((j : Int) + 1)) (sprintfD ((j : Int) + 1))
          (t (j + 1)) ((j : Int) + 1) .ok rfl rfl
          (by
            have h := atoi_sprintfD_small (j + 1) (by omega)
            push_cast at h
            exact h)
          (by simp only [targetB]; omega)]
        rfl
    · show ((reconcileB (.found (runB t 99)) (t 99) .ok).map OutcomeB.action) = _
      rw [show (99 : Nat) = 98 + 1 from rfl, runB_inv t 98 (by omega)]
      rw [show podMidB (t 0) ((98 : Nat) + 1) = ⟨some (annMidB (t 0) 99)⟩ by norm_num [podMidB]]
      rw [reconcileB_completes_lem (annMidB (t 0) 99) (sprintfD 99) (t 99) 99 .ok rfl rfl
        (atoi_sprintfD_small 99 (by omega)) (by simp only [targetB]; omega)]
      rfl
    · intro k hk
      rcases Nat.lt_or_ge k 99 with hlt | hge
      · rw [runB_inv t k (by omega)]
        simp [numOfB, podMidB, annMidB]
      · obtain rfl : k = 99 := by omega
        rw [show (99 : Nat) + 1 = 100 + 0 from rfl, runB_done t 0]
        simp [numOfB, podDoneB, annMidB]
    · intro k hk
      match k, hk with
      | 0, _ => rfl
      | j + 1, hk =>
        rw [runB_inv t j (by omega)]
        rfl
    · intro k hk
      obtain ⟨j, rfl⟩ : ∃ j, k = 100 + j := ⟨k - 100, by omega⟩
      rw [show stepB t (100 + j) =
        reconcileB (.found (runB t (100 + j))) (t (100 + j)) .ok from rfl]
      rw [runB_done t j]
      refine ⟨by simp [endOfB, podDoneB, annMidB], ?_⟩
      rw [show podDoneB (t 0) (t 99) 100 =
        (⟨some { annMidB (t 0) 100 with endCheckTime := some (timeFormat (t 99)) }⟩ : PodB) from rfl]
      rw [reconcileB_noop_lem { annMidB (t 0) 100 with endCheckTime := some (timeFormat (t 99)) }
        (timeFormat (t 99)) (t (100 + j)) .ok rfl]

/-- Witness for C2: the convergence theorem instantiated at the linear
clock that advances by exactly one second per delivery. -/
theorem claim2_witness :
    (∀ i : Nat, tLin i + interval ≤ tLin (i + 1))
    ∧ (convergesSpecA tLin ∧ convergesSpecB tLin) :=
  have h : ∀ i : Nat, tLin i + interval ≤ tLin (i + 1) := fun i => by
    simp only [tLin, interval]
    push_cast
    omega
  ⟨h, claim2_bounded_convergence tLin h⟩

/-- C1: once the terminal/end-check annotation is present, both reconcilers
perform no mutation (no write is attempted, so the stored annotations are
unchanged) and return the Done disposition (zero Result, nil error),
regardless of the current time, the store's behavior, and the values of all
other annotations. -/
theorem claim1_completed_noop :
    (∀ (pod : PodA) (ann : AnnotationsA) (e : String) (now : Int) (w : WriteResult),
        pod.annotations = some ann → ann.checkTimeEnd = some e →
        reconcileA (.found pod) now w =
          { write := none, requeueAfter := 0, err := none, action := .noopCompleted })
    ∧ (∀ (pod : PodB) (ann : AnnotationsB) (e : String) (now : Int) (w : WriteResult),
        pod.annotations = some ann → ann.endCheckTime = some e →
        reconcileB (.found pod) now w =
          some { write := none, requeueAfter := 0, err := none, action := .noopCompleted }) := by
  constructor
  · intro pod ann e now w hPod hEnd
    exact reconcileA_noop_lem pod ann e now w (by rw [hPod]; rfl) hEnd
  · intro pod ann e now w hPod hEnd
    obtain ⟨annOpt⟩ := pod
    simp only at hPod
    subst hPod
    exact reconcileB_noop_lem ann e now w hEnd

/-- Witness for C1: a Completed pod of each variant, with junk in the other
annotations, a negative clock, and a failing store, still yields the exact
no-op outcome. -/
theorem claim1_witness :
    reconcileA (.found ⟨some { checkTimeEnd := some "done", checkNum := some "junk" }⟩)
        (-7) .conflict =
      { write := none, requeueAfter := 0, err := none, action := .noopCompleted }
    ∧ reconcileB (.found ⟨some { endCheckTime := some "x", checkNum := some "??" }⟩)
        42 .error =
      some { write := none, requeueAfter := 0, err := none, action := .noopCompleted } :=
  ⟨claim1_completed_noop.1 _ _ "done" (-7) .conflict rfl rfl,
   claim1_completed_noop.2 _ _ "x" 42 .error rfl rfl⟩

/-- C3: on an Active, non-Completed variant A pod whose elapsed time since
the last update is below the interval, Reconcile mutates nothing and asks
to be requeued after exactly the remaining time; consequently, of any two
consecutive invocations separated by less than one interval, the second
never mutates: whatever pod the first invocation wrote, the second
invocation on that pod attempts no write. -/
theorem claim3_throttle :
    (∀ (pod : PodA) (ann : AnnotationsA) (s : String) (u now : Int) (w : WriteResult),
        pod.annotations = some ann → ann.checkTimeEnd = none →
        ann.checkTimeUpdate = some s → timeParse s = some u → now < u + interval →
        reconcileA (.found pod) now w =
          { write := none, requeueAfter := u + interval - now, err := none,
            action := .throttle })
    ∧ (∀ (pod pod2 : PodA) (now now2 : Int) (w w2 : WriteResult),
        (reconcileA (.found pod) now w).write = some pod2 → now2 < now + interval →
        (reconcileA (.found pod2) now2 w2).write = none) := by
  constructor
  · intro pod ann s u now w hPod hEnd hUpd hParse hEarly
    exact reconcileA_throttle_lem pod ann s u now w (by rw [hPod]; rfl) hEnd hUpd hParse hEarly
  · intro pod pod2 now now2 w w2 hWrite hClose
    obtain ⟨-, -, ann2, hAnn2, hStamp⟩ := reconcileA_write_facts pod now w pod2 hWrite
    rcases hEnd2 : ann2.checkTimeEnd with _ | e
    · rw [reconcileA_throttle_lem pod2 ann2 (timeFormat now) now now2 w2
        (by rw [hAnn2]; rfl) hEnd2 (hStamp hEnd2) (timeParse_timeFormat now) hClose]
    · rw [reconcileA_noop_lem pod2 ann2 e now2 w2 (by rw [hAnn2]; rfl) hEnd2]

/-- Witness for C3: a throttled invocation one tick early returns
requeue-after-one-second with no write, and after a successful increment a
second invocation within the same second attempts no write. -/
theorem claim3_witness :
    reconcileA
        (.found ⟨some { checkTimeUpdate := some (timeFormat 5), checkNum := some "3" }⟩)
        5 .ok =
      { write := none, requeueAfter := 1, err := none, action := .throttle }
    ∧ (reconcileA
        (.found ⟨some { checkTimeStart := none, checkTimeEnd := none,
                        checkTimeUpdate := some (timeFormat 5), checkNum := some "4" }⟩)
        5 .ok).write = none :=
  ⟨claim3_throttle.1 _ _ (timeFormat 5) 5 5 .ok rfl rfl rfl (timeParse_timeFormat 5) (by decide),
   claim3_throttle.2 ⟨some { checkTimeUpdate := some (timeFormat 4), checkNum := some "3" }⟩
     _ 5 5 .ok .ok (by decide) (by decide)⟩

/-- C4 counterexample: on an Uninitialized pod the claimed
requeue-after-interval disposition does not occur: variant A returns the
zero Result (no requeue), and variant B initializes the counter to "1",
not "0". -/
theorem claim4_counterexample :
    (reconcileA (.found ⟨some {}⟩) 0 .ok).requeueAfter ≠ interval
    ∧ ((reconcileB (.found ⟨some {}⟩) 0 .ok).bind OutcomeB.write).getD ⟨none⟩ ≠
        ⟨some { startCheckTime := some (timeFormat 0), endCheckTime := none,
                checkNum := some "0" }⟩ := by
  constructor
  · decide
  · decide

/-- C4 as amended: on an Uninitialized pod (no state annotations, no
terminal marker) each variant performs its first-run initialization in a
single mutation, but variant A writes start and last-update timestamps with
counter "0" and returns Done (zero Result, nil error; redelivery comes from
the patch-triggered watch event), while variant B writes the start
timestamp with counter "1" and returns RequeueAfter(interval). -/
theorem claim4_amended :
    (∀ (pod : PodA) (now : Int),
        pod.annotations = none ∨ pod.annotations = some {} →
        reconcileA (.found pod) now .ok =
          { write := some ⟨some { checkTimeStart := some (timeFormat now),
                                  checkTimeEnd := none,
                                  checkTimeUpdate := some (timeFormat now),
                                  checkNum := some "0" }⟩,
            requeueAfter := 0, err := none, action := .firstRun })
    ∧ (∀ (pod : PodB) (now : Int),
        pod.annotations = some {} →
        reconcileB (.found pod) now .ok =
          some { write := some ⟨some { startCheckTime := some (timeFormat now),
                                       endCheckTime := none,
                                       checkNum := some (sprintfD 1) }⟩,
                 requeueAfter := interval, err := none, action := .requeueWrite }) := by
  constructor
  · intro pod now hPod
    have hGetD : pod.annotations.getD {} = ({} : AnnotationsA) := by
      rcases hPod with h | h <;> rw [h] <;> rfl
    rw [reconcileA_firstRun_lem pod {} now .ok hGetD rfl rfl]
    rfl
  · intro pod now hPod
    obtain ⟨annOpt⟩ := pod
    simp only at hPod
    subst hPod
    rw [reconcileB_firstRun_lem {} now .ok rfl rfl]

/-- Witness for the amended C4: the first-run outcomes of both variants on
a pod with an empty annotations map at time 3. -/
theorem claim4_witness :
    reconcileA (.found ⟨some {}⟩) 3 .ok =
      { write := some ⟨some { checkTimeStart := some (timeFormat 3),
                              checkTimeEnd := none,
                              checkTimeUpdate := some (timeFormat 3),
                              checkNum := some "0" }⟩,
        requeueAfter := 0, err := none, action := .firstRun }
    ∧ reconcileB (.found ⟨some {}⟩) 3 .ok =
      some { write := some ⟨some { startCheckTime := some (timeFormat 3),
                                   endCheckTime := none,
                                   checkNum := some (sprintfD 1) }⟩,
             requeueAfter := interval, err := none, action := .requeueWrite } :=
  ⟨claim4_amended.1 ⟨some {}⟩ 3 (Or.inr rfl), claim4_amended.2 ⟨some {}⟩ 3 rfl⟩

/-- C5: the code contradicts the claim.  On a pod whose last-update
annotation is present and due while the counter annotation is absent,
variant A's Reconcile builds and logs the inconsistent-state error but then
returns the zero Result with a nil error (main.go line 126): a silent Done,
performing no mutation, instead of surfacing the error for backoff. -/
theorem claim5_inconsistent_swallowed :
    reconcileA (.found ⟨some { checkTimeUpdate := some (timeFormat 0) }⟩) 2 .ok =
      { write := none, requeueAfter := 0, err := none, action := .inconsistent } := by
  decide

/-- C6: a failed store write that is neither NotFound nor Conflict is
surfaced by variant A (first conjunct), but variant B discards the error
returned by r.Update (main.go lines 237 and 241) and proceeds exactly as if
the write had succeeded, returning RequeueAfter(interval) with a nil error
(second conjunct) - contradicting the claim for variant B. -/
theorem claim6_write_error :
    (reconcileA
        (.found ⟨some { checkTimeUpdate := some (timeFormat 0), checkNum := some "0" }⟩)
        2 .error).err = some (.write .error)
    ∧ reconcileB (.found ⟨some { checkNum := some "5" }⟩) 0 .error =
      some { write := some ⟨some { startCheckTime := none, endCheckTime := none,
                                   checkNum := some "6" }⟩,
             requeueAfter := interval, err := none, action := .requeueWrite } := by
  constructor
  · decide
  · decide

/-- C7 counterexample: a due increment whose patch is rejected with
Conflict makes variant A return the conflict as a non-nil error with no
requeue delay: an Error disposition, refuting the claimed
RequeueAfter(0)-never-Error behavior at this concrete input. -/
theorem claim7_counterexample :
    (reconcileA
        (.found ⟨some { checkTimeUpdate := some (timeFormat 0), checkNum := some "0" }⟩)
        2 .conflict).err = some (.write .conflict)
    ∧ (reconcileA
        (.found ⟨some { checkTimeUpdate := some (timeFormat 0), checkNum := some "0" }⟩)
        2 .conflict).err ≠ none := by
  constructor
  · decide
  · decide

/-- C7 as amended: a write rejected with Conflict receives no special
treatment.  Variant A returns the conflict verbatim as its error, with no
requeue delay, exactly as for any other write failure (so the disposition
is Error, and the external backoff governs the retry); variant B ignores
the store's reply entirely, behaving identically to a successful write.
Neither variant maps Conflict to an immediate requeue. -/
theorem claim7_amended :
    (∀ (pod pod2 : PodA) (now : Int),
        (reconcileA (.found pod) now .conflict).write = some pod2 →
        (reconcileA (.found pod) now .conflict).err = some (.write .conflict)
        ∧ (reconcileA (.found pod) now .conflict).requeueAfter = 0)
    ∧ (∀ (pod : PodB) (now : Int) (w : WriteResult),
        reconcileB (.found pod) now w = reconcileB (.found pod) now .ok) := by
  constructor
  · intro pod pod2 now hWrite
    obtain ⟨hErr, hReq, -⟩ := reconcileA_write_facts pod now .conflict pod2 hWrite
    exact ⟨by rw [hErr]; rfl, hReq⟩
  · intro pod now w
    rfl

/-- Witness for the amended C7: a due increment rejected with Conflict at a
concrete input, and variant B's indifference to a conflicting write. -/
theorem claim7_witness :
    ((reconcileA
        (.found ⟨some { checkTimeUpdate := some (timeFormat 4), checkNum := some "7" }⟩)
        5 .conflict).err = some (.write .conflict)
      ∧ (reconcileA
        (.found ⟨some { checkTimeUpdate := some (timeFormat 4), checkNum := some "7" }⟩)
        5 .conflict).requeueAfter = 0)
    ∧ reconcileB (.found ⟨some { checkNum := some "5" }⟩) 0 .conflict =
        reconcileB (.found ⟨some { checkNum := some "5" }⟩) 0 .ok :=
  ⟨claim7_amended.1 ⟨some { checkTimeUpdate := some (timeFormat 4), checkNum := some "7" }⟩
      ⟨some { checkTimeUpdate := some (timeFormat 5), checkNum := some "8" }⟩ 5 (by decide),
   claim7_amended.2 ⟨some { checkNum := some "5" }⟩ 0 .conflict⟩

/-- C8: a present but unparsable counter annotation is a hard error in both
variants: no mutation is attempted, no default is applied, and the parse
error is returned to the caller. -/
theorem claim8_malformed_counter :
    (∀ (pod : PodA) (ann : AnnotationsA) (s ns : String) (u now : Int) (w : WriteResult),
        pod.annotations = some ann → ann.checkTimeEnd = none →
        ann.checkTimeUpdate = some s → timeParse s = some u →
        u + interval ≤ now → ann.checkNum = some ns → atoi ns = none →
        reconcileA (.found pod) now w =
          { write := none, requeueAfter := 0, err := some (.parseNum ns),
            action := .malformedNum })
    ∧ (∀ (pod : PodB) (ann : AnnotationsB) (ns : String) (now : Int) (w : WriteResult),
        pod.annotations = some ann → ann.endCheckTime = none → ann.checkNum = some ns →
        atoi ns = none →
        reconcileB (.found pod) now w =
          some { write := none, requeueAfter := 0, err := some (.parseNum ns),
                 action := .malformedNum }) := by
  constructor
  · intro pod ann s ns u now w hPod hEnd hUpd hParse hDue hNum hBad
    exact reconcileA_malformedNum_lem pod ann s ns u now w (by rw [hPod]; rfl)
      hEnd hUpd hParse hDue hNum hBad
  · intro pod ann ns now w hPod hEnd hNum hBad
    obtain ⟨annOpt⟩ := pod
    simp only at hPod
    subst hPod
    exact reconcileB_malformedNum_lem ann ns now w hEnd hNum hBad

/-- Witness for C8: the counter value "7a" fails to parse and is returned
as the error by both variants. -/
theorem claim8_witness :
    reconcileA
        (.found ⟨some { checkTimeUpdate := some (timeFormat 0), checkNum := some "7a" }⟩)
        5 .ok =
      { write := none, requeueAfter := 0, err := some (.parseNum "7a"),
        action := .malformedNum }
    ∧ reconcileB (.found ⟨some { checkNum := some "7a" }⟩) 5 .ok =
      some { write := none, requeueAfter := 0, err := some (.parseNum "7a"),
             action := .malformedNum } :=
  ⟨claim8_malformed_counter.1 _ _ (timeFormat 0) "7a" 0 5 .ok rfl rfl rfl
      (timeParse_timeFormat 0) (by decide) rfl (by decide),
   claim8_malformed_counter.2 _ _ "7a" 5 .ok rfl rfl rfl (by decide)⟩

/-- C9: when the Get returns NotFound, both variants return the Done
disposition - zero Result, nil error, no requeue - for every current time
and store behavior; the NotFound error is never surfaced. -/
theorem claim9_notfound_done :
    ∀ (now : Int) (w : WriteResult),
      reconcileA .notFound now w =
        { write := none, requeueAfter := 0, err := none, action := .notFound }
      ∧ reconcileB .notFound now w =
        some { write := none, requeueAfter := 0, err := none, action := .notFound } :=
  fun _ _ => ⟨rfl, rfl⟩

/-- C10: on a pod fetched with a nil annotations map and no terminal
marker, variant A initializes the map and completes the first-run mutation
(first conjunct, confirming the claim for the cited code), but variant B
reaches the first-run branch and assigns into the nil map, which is a
run-time panic in go (modelled as none): for variant B the claim fails. -/
theorem claim10_nil_annotations :
    ∀ (now : Int) (w : WriteResult),
      reconcileA (.found ⟨none⟩) now .ok =
        { write := some ⟨some { checkTimeStart := some (timeFormat now),
                                checkTimeEnd := none,
                                checkTimeUpdate := some (timeFormat now),
                                checkNum := some "0" }⟩,
          requeueAfter := 0, err := none, action := .firstRun }
      ∧ reconcileB (.found ⟨none⟩) now w = none := by
  intro now w
  constructor
  · rw [reconcileA_firstRun_lem ⟨none⟩ {} now .ok rfl rfl rfl]
    rfl
  · rfl
